import Mathlib

/-!
Verification of the user-management endpoints in
`backend/app/api/users.py` (FastAPI + EdgeDB backend).

The handlers in `users.py` are embedded as pure Lean functions over an
explicit store (a list of users).  The persistence layer (`crud`), the
schemas, the configuration object and the authenticator are not part of
the given source tree; where their behaviour matters they are modelled
from the specification and marked as such in their doc comments.
-/

set_option autoImplicit false

/-- The User entity of the data model: `id` (unique identifier), `email`
(unique), `full_name` (optional), `hashed_password`, `is_active`,
`is_superuser`.  UUIDs are modelled as natural numbers. -/
structure User where
  id : Nat
  email : String
  full_name : Option String
  hashed_password : String
  is_active : Bool
  is_superuser : Bool
deriving DecidableEq, Repr

/-- Payload of `schemas.UserCreate`: the data supplied when creating a user. -/
structure UserCreate where
  email : String
  password : String
  full_name : Option String
deriving DecidableEq, Repr

/-- Payload of `schemas.UserUpdate`: a patch where every field is optional;
an absent field means "leave unchanged". -/
structure UserUpdate where
  password : Option String
  full_name : Option String
  email : Option String
  is_active : Option Bool
  is_superuser : Option Bool
deriving DecidableEq, Repr

/-- The configuration flags consumed by `users.py` (`app.config.settings`). -/
structure Settings where
  EMAILS_ENABLED : Bool
  USERS_OPEN_REGISTRATION : Bool
deriving DecidableEq, Repr

/-- A raised `fastapi.HTTPException`: status code plus detail message. -/
structure HTTPException where
  status_code : Nat
  detail : String
deriving DecidableEq, Repr

/-- Optional filters of `schemas.UserFilterParams`; absent fields are
excluded from the query. -/
structure UserFilterParams where
  email : Option String
  full_name : Option String
  is_active : Option Bool
  is_superuser : Option Bool
deriving DecidableEq, Repr

/-- The page object `schemas.PaginatedUsers`. -/
structure PaginatedUsers where
  items : List User
  total : Nat
  offset : Nat
  limit : Nat
deriving DecidableEq, Repr

/-- Modelled from the spec: password hashing used by the Store when
persisting a supplied plain password (the hashing utility is outside the
given sources; only that `hashed_password` is derived from `password`
matters here). -/
def hashPassword (password : String) : String :=
  "hashed:" ++ password

/-- Modelled from the spec: the Store allocates a fresh unique id for a
created user. -/
def freshId (s : List User) : Nat :=
  (s.map (fun u => u.id)).foldr max 0 + 1

namespace crud

/-- Modelled from the spec: Store lookup by id (`crud.user.get`). -/
def get (s : List User) (id : Nat) : Option User :=
  s.find? (fun x => x.id == id)

/-- Modelled from the spec: Store lookup by email (`crud.user.get_by_email`). -/
def get_by_email (s : List User) (email : String) : Option User :=
  s.find? (fun x => x.email == email)

/-- Modelled from the spec: Store creation (`crud.user.create`): persists a
new user built from the payload and returns it. -/
def create (s : List User) (obj_in : UserCreate) : List User × User :=
  let u : User :=
    { id := freshId s, email := obj_in.email, full_name := obj_in.full_name,
      hashed_password := hashPassword obj_in.password,
      is_active := true, is_superuser := false }
  (s ++ [u], u)

/-- Applying a `UserUpdate` patch to a stored record: each supplied field
overwrites the stored value, each absent field is left unchanged (a
supplied plain password is stored hashed). -/
def applyUpdate (u : User) (p : UserUpdate) : User :=
  { u with
    email := p.email.getD u.email,
    full_name := match p.full_name with
      | some n => some n
      | none => u.full_name,
    hashed_password := match p.password with
      | some pw => hashPassword pw
      | none => u.hashed_password,
    is_active := p.is_active.getD u.is_active,
    is_superuser := p.is_superuser.getD u.is_superuser }

/-- The store with the record at `id` replaced by `u2`. -/
def storeUpdate (s : List User) (id : Nat) (u2 : User) : List User :=
  s.map (fun x => if x.id == id then u2 else x)

/-- Modelled from the spec: Store update (`crud.user.update`): merges the
patch into the record with the given id and returns the updated record,
or nothing when the id is absent. -/
def update (s : List User) (id : Nat) (p : UserUpdate) :
    Option (List User × User) :=
  (s.find? (fun x => x.id == id)).map (fun u =>
    let u2 := applyUpdate u p
    (storeUpdate s id u2, u2))

/-- The store with the record at `id` removed. -/
def storeRemove (s : List User) (id : Nat) : List User :=
  s.filter (fun x => x.id != id)

/-- Modelled from the spec: Store removal (`crud.user.remove`): deletes the
record with the given id and returns its prior state, or nothing when the
id is absent. -/
def remove (s : List User) (id : Nat) : Option (List User × User) :=
  (s.find? (fun x => x.id == id)).map (fun u => (storeRemove s id, u))

/-- Whether a stored user matches every filter field that is present
(absent fields are excluded from the query). -/
def matchesFilter (f : UserFilterParams) (u : User) : Bool :=
  (match f.email with | some e => u.email == e | none => true) &&
  (match f.full_name with | some n => u.full_name == some n | none => true) &&
  (match f.is_active with | some b => u.is_active == b | none => true) &&
  (match f.is_superuser with | some b => u.is_superuser == b | none => true)

/-- Insert a user into a list sorted by the comparator `le`. -/
def insertSorted (le : User → User → Bool) (u : User) : List User → List User
  | [] => [u]
  | v :: vs => if le u v then u :: v :: vs else v :: insertSorted le u vs

/-- Sort users by the comparator `le` (insertion sort; the ordering
parameter of `CommonQueryParams` is modelled as the comparator it
denotes). -/
def sortUsers (le : User → User → Bool) : List User → List User
  | [] => []
  | u :: us => insertSorted le u (sortUsers le us)

/-- Modelled from the spec: paginated Store query (`crud.user.get_multi`):
filters, orders, then applies the `offset`/`limit` window to the items;
`total` counts all filter-matching rows irrespective of paging. -/
def get_multi (s : List User) (f : UserFilterParams)
    (le : User → User → Bool) (offset limit : Nat) : PaginatedUsers :=
  let matched := s.filter (matchesFilter f)
  { items := ((sortUsers le matched).drop offset).take limit,
    total := matched.length, offset := offset, limit := limit }

end crud

/-- A well-formed store: stored ids are pairwise distinct. -/
def wfStore (s : List User) : Prop :=
  s.Pairwise (fun a b => a.id ≠ b.id)

instance (s : List User) : Decidable (wfStore s) := by
  unfold wfStore; infer_instance

/-- Modelled from the spec: the Authenticator resolves the calling
principal — `auth.get_current_active_user` yields a stored user record
whose `is_active` flag is set (the session layer reads the principal back
from the store). -/
def isActiveCaller (s : List User) (c : User) : Prop :=
  c ∈ s ∧ c.is_active = true

instance (s : List User) (c : User) : Decidable (isActiveCaller s c) := by
  unfold isActiveCaller; infer_instance

/-- Handler `read_users` (GET `/`): superuser-gated listing; delegates to
the paginated Store query. -/
def read_users (s : List User) (filtering : UserFilterParams)
    (le : User → User → Bool) (offset limit : Nat) (current_user : User) :
    PaginatedUsers :=
  crud.get_multi s filtering le offset limit

/-- Handler `create_user` (POST `/`): superuser-gated creation.  Rejects a
duplicate email with 400, otherwise persists the user; afterwards, when
`EMAILS_ENABLED` holds and the payload email is non-empty, the new-account
notification is dispatched fire-and-forget.  The returned Bool records
whether the notification was dispatched; `notifier_ok`, the eventual
outcome of that dispatch, is never inspected (the handler does not await
it). -/
def create_user (cfg : Settings) (s : List User) (user_in : UserCreate)
    (current_user : User) (notifier_ok : Bool) :
    Except HTTPException (List User × User × Bool) :=
  match crud.get_by_email s user_in.email with
  | some _ => Except.error
      ⟨400, "The user with this username already exists in the system."⟩
  | none =>
    let r := crud.create s user_in
    if cfg.EMAILS_ENABLED && user_in.email != "" then
      Except.ok (r.1, r.2, true)
    else
      Except.ok (r.1, r.2, false)

/-- The store after a `create_user` request: unchanged when the handler
raised. -/
def create_user_store (cfg : Settings) (s : List User) (user_in : UserCreate)
    (current_user : User) (notifier_ok : Bool) : List User :=
  match create_user cfg s user_in current_user notifier_ok with
  | Except.ok (s2, _, _) => s2
  | Except.error _ => s

/-- Handler `update_user_me` (PUT `/me`): builds a `UserUpdate` from the
caller's own data, overwrites it with whichever of `password`,
`full_name`, `email` were supplied in the body, and hands it to the Store
update at the caller's id. -/
def update_user_me (s : List User)
    (password full_name email : Option String) (current_user : User) :
    Except HTTPException (List User × User) :=
  let user_in : UserUpdate :=
    { password := none, full_name := current_user.full_name,
      email := some current_user.email,
      is_active := some current_user.is_active,
      is_superuser := some current_user.is_superuser }
  let user_in := match password with
    | some pw => { user_in with password := some pw }
    | none => user_in
  let user_in := match full_name with
    | some fn => { user_in with full_name := some fn }
    | none => user_in
  let user_in := match email with
    | some e => { user_in with email := some e }
    | none => user_in
  match crud.update s current_user.id user_in with
  | some r => Except.ok r
  | none => Except.error
      ⟨404, "The user with this username does not exist in the system"⟩

/-- Handler `read_user_me` (GET `/me`): returns the principal resolved by
the authenticator as is; the store connection is taken as a dependency but
never consulted. -/
def read_user_me (s : List User) (current_user : User) :
    Except HTTPException User :=
  Except.ok current_user

/-- Handler `create_user_open` (POST `/open`): open registration.  The
configuration gate is checked first; then the duplicate-email check; then
the user is created.  No notification is sent on this path. -/
def create_user_open (cfg : Settings) (s : List User)
    (password email : String) (full_name : Option String) :
    Except HTTPException (List User × User) :=
  if !cfg.USERS_OPEN_REGISTRATION then
    Except.error ⟨403, "Open user registration is forbidden on this server"⟩
  else
    match crud.get_by_email s email with
    | some _ => Except.error
        ⟨400, "The user with this username already exists in the system"⟩
    | none =>
      let user_in : UserCreate :=
        { password := password, email := email, full_name := full_name }
      let r := crud.create s user_in
      Except.ok r

/-- Handler `read_user` (GET `/user_id`): looks the target up first (404
when absent); returns it when it equals the caller (the source compares
the whole records, not just the ids); otherwise requires a superuser
caller (400 when not). -/
def read_user (s : List User) (user_id : Nat) (current_user : User) :
    Except HTTPException User :=
  match crud.get s user_id with
  | none => Except.error ⟨404, "User not found"⟩
  | some user =>
    if user = current_user then Except.ok user
    else if !current_user.is_superuser then
      Except.error ⟨400, "The user doesn\x27t have enough privileges"⟩
    else Except.ok user

/-- Handler `update_user` (PUT `/user_id`): looks the target up (404 when
absent) and hands the patch to the Store update; no self-or-superuser
check is performed beyond the active-user dependency. -/
def update_user (s : List User) (user_id : Nat) (user_in : UserUpdate)
    (current_user : User) : Except HTTPException (List User × User) :=
  match crud.get s user_id with
  | none => Except.error
      ⟨404, "The user with this username does not exist in the system"⟩
  | some _ =>
    match crud.update s user_id user_in with
    | some r => Except.ok r
    | none => Except.error
        ⟨404, "The user with this username does not exist in the system"⟩

/-- Handler `delete_user` (DELETE `/user_id`): looks the target up (404
when absent); requires the caller to be a superuser or the target itself
(400 when not); then removes the record and returns its prior state. -/
def delete_user (s : List User) (user_id : Nat) (current_user : User) :
    Except HTTPException (List User × User) :=
  match crud.get s user_id with
  | none => Except.error ⟨404, "User not found"⟩
  | some user =>
    if !current_user.is_superuser && user.id != current_user.id then
      Except.error ⟨400, "Not enough permissions"⟩
    else
      match crud.remove s user_id with
      | some r => Except.ok r
      | none => Except.error ⟨404, "User not found"⟩

/-! ## Store lemmas -/

/-- In a well-formed store, looking up a member's id finds exactly that
member. -/
theorem find_id_of_mem {s : List User} {u : User}
    (hwf : wfStore s) (hu : u ∈ s) :
    s.find? (fun x => x.id == u.id) = some u := by
  induction s with
  | nil => cases hu
  | cons v vs ih =>
    unfold wfStore at hwf
    rw [List.pairwise_cons] at hwf
    rcases List.mem_cons.mp hu with h | h
    · subst h
      simp [List.find?]
    · have hne : v.id ≠ u.id := hwf.1 u h
      simp only [List.find?]
      rw [show (v.id == u.id) = false by simp [hne]]
      exact ih hwf.2 h

/-- In a well-formed store, two members with the same id are the same
record. -/
theorem id_inj {s : List User} {u c : User}
    (hwf : wfStore s) (hu : u ∈ s) (hc : c ∈ s) (h : u.id = c.id) :
    u = c := by
  have h1 := find_id_of_mem hwf hu
  have h2 := find_id_of_mem hwf hc
  rw [h] at h1
  rw [h1] at h2
  exact Option.some.inj h2

/-! ## Concrete fixtures used by the witnesses -/

/-- A plain active user. -/
def alice : User :=
  { id := 1, email := "alice@example.com", full_name := some "Alice",
    hashed_password := "hashed:a", is_active := true, is_superuser := false }

/-- Another plain active user. -/
def bob : User :=
  { id := 2, email := "bob@example.com", full_name := none,
    hashed_password := "hashed:b", is_active := true, is_superuser := false }

/-- An active superuser. -/
def carol : User :=
  { id := 3, email := "carol@example.com", full_name := none,
    hashed_password := "hashed:c", is_active := true, is_superuser := true }

/-- A small well-formed store. -/
def demoStore : List User := [alice, bob, carol]

/-- A sample admin patch. -/
def demoPatch : UserUpdate :=
  { password := some "newpw", full_name := some "New Name",
    email := none, is_active := none, is_superuser := none }

/-! ## Claims -/

/-- Claim C1: for every stored user `u` and every active caller `c`,
`read_user u.id c` returns `u` when `u.id = c.id` (even for a
non-superuser caller) or when the caller is a superuser; when `u` exists,
the ids differ and the caller is not a superuser, it fails with a 400
insufficient-privilege error. -/
theorem C1_read_user_authorization (s : List User) (u c : User)
    (hwf : wfStore s) (hu : u ∈ s) (hc : isActiveCaller s c) :
    ((u.id = c.id ∨ c.is_superuser = true) →
      read_user s u.id c = Except.ok u) ∧
    (u.id ≠ c.id → c.is_superuser = false →
      read_user s u.id c =
        Except.error ⟨400, "The user doesn\x27t have enough privileges"⟩) := by
  have hget : crud.get s u.id = some u := find_id_of_mem hwf hu
  constructor
  · rintro (hid | hsup)
    · have huc : u = c := id_inj hwf hu hc.1 hid
      subst huc
      simp [read_user, hget]
    · by_cases huc : u = c
      · subst huc
        simp [read_user, hget]
      · simp [read_user, hget, huc, hsup]
  · intro hid hsup
    have huc : u ≠ c := fun h => hid (by rw [h])
    simp [read_user, hget, huc, hsup]

theorem C1_read_user_authorization_witness :
    read_user demoStore alice.id alice = Except.ok alice ∧
    read_user demoStore alice.id bob =
      Except.error ⟨400, "The user doesn\x27t have enough privileges"⟩ :=
  ⟨(C1_read_user_authorization demoStore alice alice (by decide) (by decide)
      (by decide)).1 (Or.inl rfl),
   (C1_read_user_authorization demoStore alice bob (by decide) (by decide)
      (by decide)).2 (by decide) rfl⟩

/-- Claim C2: for every active caller (superuser or not, owner or not),
`update_user` fails with 404 NotFound exactly when no user with the given
id exists; otherwise it applies the patch and returns the updated user.
No self-or-superuser authorization check appears: the caller only enters
through the active-user dependency. -/
theorem C2_update_user_no_authz (s : List User) (id : Nat) (p : UserUpdate)
    (c : User) (hc : isActiveCaller s c) :
    (update_user s id p c =
        Except.error
          ⟨404, "The user with this username does not exist in the system"⟩ ↔
      crud.get s id = none) ∧
    (∀ u, crud.get s id = some u →
      update_user s id p c =
        Except.ok (crud.storeUpdate s id (crud.applyUpdate u p),
          crud.applyUpdate u p)) := by
  cases hfind : crud.get s id with
  | none =>
    constructor
    · simp [update_user, hfind]
    · intro u hu
      cases hu
  | some u =>
    have hfind2 : s.find? (fun x => x.id == id) = some u := hfind
    constructor
    · simp [update_user, hfind, crud.update, hfind2]
    · intro v hv
      cases hv
      simp [update_user, hfind, crud.update, hfind2]

theorem C2_update_user_no_authz_witness :
    update_user demoStore 1 demoPatch bob =
      Except.ok (crud.storeUpdate demoStore 1 (crud.applyUpdate alice demoPatch),
        crud.applyUpdate alice demoPatch) :=
  (C2_update_user_no_authz demoStore 1 demoPatch bob (by decide)).2 alice
    (by decide)

/-- Claim C3: for every active caller `c` and stored user `u`,
`delete_user u.id c` succeeds exactly when `c` is a superuser or `u.id =
c.id`, removing the record and returning its prior state; otherwise it
fails with 400 Forbidden, and with 404 NotFound when no user with the
requested id exists. -/
theorem C3_delete_user_authorization (s : List User) (u c : User)
    (hwf : wfStore s) (hu : u ∈ s) (hc : isActiveCaller s c) :
    ((c.is_superuser = true ∨ u.id = c.id) →
      delete_user s u.id c = Except.ok (crud.storeRemove s u.id, u)) ∧
    (c.is_superuser = false → u.id ≠ c.id →
      delete_user s u.id c = Except.error ⟨400, "Not enough permissions"⟩) ∧
    (∀ id2, crud.get s id2 = none →
      delete_user s id2 c = Except.error ⟨404, "User not found"⟩) := by
  have hget : crud.get s u.id = some u := find_id_of_mem hwf hu
  have hget2 : s.find? (fun x => x.id == u.id) = some u := hget
  refine ⟨?_, ?_, ?_⟩
  · rintro (hsup | hid)
    · simp [delete_user, hget, hsup, crud.remove, hget2]
    · have huc : u = c := id_inj hwf hu hc.1 hid
      subst huc
      simp [delete_user, hget, crud.remove, hget2]
  · intro hsup hid
    simp [delete_user, hget, hsup, hid]
  · intro id2 habs
    simp [delete_user, habs]

theorem C3_delete_user_authorization_witness :
    delete_user demoStore alice.id carol =
      Except.ok (crud.storeRemove demoStore alice.id, alice) ∧
    delete_user demoStore alice.id bob =
      Except.error ⟨400, "Not enough permissions"⟩ :=
  ⟨(C3_delete_user_authorization demoStore alice carol (by decide) (by decide)
      (by decide)).1 (Or.inl rfl),
   (C3_delete_user_authorization demoStore alice bob (by decide) (by decide)
      (by decide)).2.1 rfl (by decide)⟩

/-- The record `updateSelf` is expected to produce: the caller's record
with exactly the supplied fields overwritten (a supplied password lands
in `hashed_password`), every other field untouched. -/
def mergePatch (c : User) (p fn e : Option String) : User :=
  { c with
    email := e.getD c.email,
    full_name := match fn with
      | some f => some f
      | none => c.full_name,
    hashed_password := match p with
      | some pw => hashPassword pw
      | none => c.hashed_password }

/-- Claim C4: for every active caller, `update_user_me` writes only the
supplied fields (password, full_name, email) over the caller's record;
every unsupplied field keeps its previous value and is not nulled — in
particular a patch supplying only `full_name` leaves `email` and the
password unchanged. -/
theorem C4_update_user_me_merge (s : List User) (c : User)
    (hwf : wfStore s) (hc : isActiveCaller s c)
    (p fn e : Option String) :
    update_user_me s p fn e c =
      Except.ok (crud.storeUpdate s c.id (mergePatch c p fn e),
        mergePatch c p fn e) ∧
    (p = none → (mergePatch c p fn e).hashed_password = c.hashed_password) ∧
    (e = none → (mergePatch c p fn e).email = c.email) ∧
    (fn = none → (mergePatch c p fn e).full_name = c.full_name) ∧
    (mergePatch c p fn e).id = c.id := by
  have hfind : s.find? (fun x => x.id == c.id) = some c :=
    find_id_of_mem hwf hc.1
  refine ⟨?_, ?_, ?_, ?_, ?_⟩
  · rcases p with _ | pw <;> rcases fn with _ | f <;> rcases e with _ | em <;>
      rcases hfn : c.full_name with _ | n <;>
      simp [update_user_me, crud.update, hfind, crud.applyUpdate, mergePatch,
        hfn]
  · rintro rfl
    simp [mergePatch]
  · rintro rfl
    simp [mergePatch]
  · rintro rfl
    rcases hfn : c.full_name with _ | n <;> simp [mergePatch, hfn]
  · simp [mergePatch]

theorem C4_update_user_me_merge_witness :
    update_user_me demoStore none (some "Alice B") none alice =
      Except.ok
        (crud.storeUpdate demoStore alice.id
          (mergePatch alice none (some "Alice B") none),
         mergePatch alice none (some "Alice B") none) ∧
    (mergePatch alice none (some "Alice B") none).email = alice.email ∧
    (mergePatch alice none (some "Alice B") none).hashed_password =
      alice.hashed_password :=
  ⟨(C4_update_user_me_merge demoStore alice (by decide) (by decide) none
      (some "Alice B") none).1,
   (C4_update_user_me_merge demoStore alice (by decide) (by decide) none
      (some "Alice B") none).2.2.1 rfl,
   (C4_update_user_me_merge demoStore alice (by decide) (by decide) none
      (some "Alice B") none).2.1 rfl⟩

/-- Claim C5: `create_user_open` fails with 403 Forbidden whenever the
`USERS_OPEN_REGISTRATION` flag is off, for every store and every email —
the gate is decided before the duplicate check; with the flag on it fails
with 400 Conflict on a duplicate email and otherwise creates and returns
the user. -/
theorem C5_create_user_open_gate (cfg : Settings) (s : List User)
    (pw em : String) (fn : Option String) :
    (cfg.USERS_OPEN_REGISTRATION = false →
      create_user_open cfg s pw em fn =
        Except.error
          ⟨403, "Open user registration is forbidden on this server"⟩) ∧
    (cfg.USERS_OPEN_REGISTRATION = true →
      ((∃ w, crud.get_by_email s em = some w) →
        create_user_open cfg s pw em fn =
          Except.error
            ⟨400, "The user with this username already exists in the system"⟩) ∧
      (crud.get_by_email s em = none →
        create_user_open cfg s pw em fn =
          Except.ok (crud.create s ⟨em, pw, fn⟩))) := by
  constructor
  · intro hoff
    simp [create_user_open, hoff]
  · intro hon
    constructor
    · rintro ⟨w, hw⟩
      simp [create_user_open, hon, hw]
    · intro hfresh
      simp [create_user_open, hon, hfresh]

theorem C5_create_user_open_gate_witness :
    create_user_open ⟨true, false⟩ demoStore "pw" "zed@example.com" none =
      Except.error
        ⟨403, "Open user registration is forbidden on this server"⟩ ∧
    create_user_open ⟨true, true⟩ demoStore "pw" "alice@example.com" none =
      Except.error
        ⟨400, "The user with this username already exists in the system"⟩ :=
  ⟨(C5_create_user_open_gate ⟨true, false⟩ demoStore "pw" "zed@example.com"
      none).1 rfl,
   ((C5_create_user_open_gate ⟨true, true⟩ demoStore "pw" "alice@example.com"
      none).2 rfl).1 ⟨alice, by decide⟩⟩

/-- Claim C6: for every superuser caller, `create_user` fails with 400
Conflict whenever a user with the requested email is already registered,
and in that case the store is left unchanged. -/
theorem C6_create_user_duplicate (cfg : Settings) (s : List User)
    (user_in : UserCreate) (c : User) (r : Bool)
    (hsup : c.is_superuser = true) (w : User)
    (hdup : crud.get_by_email s user_in.email = some w) :
    create_user cfg s user_in c r =
      Except.error
        ⟨400, "The user with this username already exists in the system."⟩ ∧
    create_user_store cfg s user_in c r = s := by
  constructor
  · simp [create_user, hdup]
  · simp [create_user_store, create_user, hdup]

theorem C6_create_user_duplicate_witness :
    create_user ⟨true, true⟩ demoStore ⟨"alice@example.com", "pw", none⟩
        carol true =
      Except.error
        ⟨400, "The user with this username already exists in the system."⟩ ∧
    create_user_store ⟨true, true⟩ demoStore ⟨"alice@example.com", "pw", none⟩
        carol true = demoStore :=
  C6_create_user_duplicate ⟨true, true⟩ demoStore
    ⟨"alice@example.com", "pw", none⟩ carol true rfl alice (by decide)

/-- Claim C7: on every successful `create_user`, the user is persisted
(it is in the returned store, which is the old store with the new record
appended), the notification is dispatched exactly when `EMAILS_ENABLED`
holds and the payload email is non-empty, and the notifier's eventual
outcome (`r1` versus `r2`) affects neither the stored data nor the
response: creation is never rolled back and no notifier failure is
surfaced. -/
theorem C7_create_user_notification (cfg : Settings) (s : List User)
    (user_in : UserCreate) (c : User)
    (hsup : c.is_superuser = true)
    (hfresh : crud.get_by_email s user_in.email = none)
    (r1 r2 : Bool) :
    create_user cfg s user_in c r1 = create_user cfg s user_in c r2 ∧
    create_user cfg s user_in c r1 =
      Except.ok (s ++ [(crud.create s user_in).2], (crud.create s user_in).2,
        cfg.EMAILS_ENABLED && user_in.email != "") ∧
    (crud.create s user_in).2 ∈ create_user_store cfg s user_in c r1 := by
  refine ⟨rfl, ?_, ?_⟩
  · cases hmail : cfg.EMAILS_ENABLED && user_in.email != "" with
    | true => simp [create_user, hfresh, hmail, crud.create]
    | false => simp [create_user, hfresh, hmail, crud.create]
  · cases hmail : cfg.EMAILS_ENABLED && user_in.email != "" with
    | true => simp [create_user_store, create_user, hfresh, hmail, crud.create]
    | false => simp [create_user_store, create_user, hfresh, hmail, crud.create]

theorem C7_create_user_notification_witness :
    create_user ⟨true, true⟩ demoStore ⟨"zed@example.com", "pw", none⟩
        carol false =
      create_user ⟨true, true⟩ demoStore ⟨"zed@example.com", "pw", none⟩
        carol true ∧
    create_user ⟨true, true⟩ demoStore ⟨"zed@example.com", "pw", none⟩
        carol false =
      Except.ok
        (demoStore ++
            [(crud.create demoStore ⟨"zed@example.com", "pw", none⟩).2],
         (crud.create demoStore ⟨"zed@example.com", "pw", none⟩).2,
         Settings.EMAILS_ENABLED ⟨true, true⟩ &&
           UserCreate.email ⟨"zed@example.com", "pw", none⟩ != "") ∧
    (crud.create demoStore ⟨"zed@example.com", "pw", none⟩).2 ∈
      create_user_store ⟨true, true⟩ demoStore ⟨"zed@example.com", "pw", none⟩
        carol false :=
  C7_create_user_notification ⟨true, true⟩ demoStore
    ⟨"zed@example.com", "pw", none⟩ carol rfl (by decide) false true

/-- A sample filter: active users only. -/
def demoFilter : UserFilterParams :=
  { email := none, full_name := none, is_active := some true,
    is_superuser := none }

/-- A sample ordering comparator: ascending id. -/
def demoLe (a b : User) : Bool := Nat.ble a.id b.id

/-- Claim C8: for every superuser caller, listing with `offset = 0` and
`limit = N` returns a page of at most `N` items, and the returned `total`
counts all filter-matching rows irrespective of the paging window. -/
theorem C8_read_users_paging (s : List User) (f : UserFilterParams)
    (le : User → User → Bool) (N : Nat) (c : User)
    (hsup : c.is_superuser = true) :
    (read_users s f le 0 N c).items.length ≤ N ∧
    (∀ off lim, (read_users s f le off lim c).total =
      (s.filter (crud.matchesFilter f)).length) := by
  constructor
  · simp only [read_users, crud.get_multi]
    exact List.length_take_le N _
  · intro off lim
    simp [read_users, crud.get_multi]

theorem C8_read_users_paging_witness :
    (read_users demoStore demoFilter demoLe 0 2 carol).items.length ≤ 2 ∧
    (read_users demoStore demoFilter demoLe 5 1 carol).total =
      (demoStore.filter (crud.matchesFilter demoFilter)).length :=
  ⟨(C8_read_users_paging demoStore demoFilter demoLe 2 carol rfl).1,
   (C8_read_users_paging demoStore demoFilter demoLe 2 carol rfl).2 5 1⟩

/-- Claim C9: in both `read_user` and `delete_user`, existence is decided
before authorization: for every active non-superuser caller and every id
with no stored user, the outcome is the 404 NotFound error and never a 400
Forbidden one. -/
theorem C9_absent_target_not_found (s : List User) (id : Nat) (c : User)
    (hc : isActiveCaller s c) (hsup : c.is_superuser = false)
    (habs : crud.get s id = none) :
    read_user s id c = Except.error ⟨404, "User not found"⟩ ∧
    delete_user s id c = Except.error ⟨404, "User not found"⟩ ∧
    (∀ d, read_user s id c ≠ Except.error ⟨400, d⟩) ∧
    (∀ d, delete_user s id c ≠ Except.error ⟨400, d⟩) := by
  have hr : read_user s id c = Except.error ⟨404, "User not found"⟩ := by
    simp [read_user, habs]
  have hd : delete_user s id c = Except.error ⟨404, "User not found"⟩ := by
    simp [delete_user, habs]
  refine ⟨hr, hd, ?_, ?_⟩
  · intro d h
    rw [hr] at h
    cases h
  · intro d h
    rw [hd] at h
    cases h

theorem C9_absent_target_not_found_witness :
    read_user demoStore 99 bob = Except.error ⟨404, "User not found"⟩ ∧
    delete_user demoStore 99 bob = Except.error ⟨404, "User not found"⟩ :=
  ⟨(C9_absent_target_not_found demoStore 99 bob (by decide) rfl (by decide)).1,
   (C9_absent_target_not_found demoStore 99 bob (by decide) rfl
      (by decide)).2.1⟩

/-- Claim C10: `read_user_me` returns exactly the principal resolved by
the authenticator: it never fails (in particular never with NotFound),
performs no store lookup (the result is the same over any two stores),
and modifies no field. -/
theorem C10_read_user_me_principal (s s2 : List User) (c : User) :
    read_user_me s c = Except.ok c ∧
    read_user_me s c = read_user_me s2 c := by
  exact ⟨rfl, rfl⟩
